/-
Verification of the crypto-licensing core (crypto_licensing/licensing/verification.py)
against its natural-language specification.

Shallow embedding conventions:
 * `Timestamp` and `Duration` values (from the `misc` helper module, which only
   supplies the coercions/rendering) are modelled as integers counting seconds;
   the verification logic only uses their total order, addition and comparison
   with zero.
 * byte strings are `List Nat` (each element one byte);
 * Python `None` becomes `Option.none`; Python exceptions become `Except`;
 * external collaborators named by the spec (the DNS TXT resolver, the Ed25519
   primitives, SHA-256, ChaCha20-Poly1305 and the machine-id provider) are
   supplied through an explicit `Env` record, exactly at the interface boundary
   the spec declares (§1: resolve_txt, machine_uuid, crypto primitives).
Everything else is translated directly from the source file.
-/
import Mathlib

namespace CryptoLicensing

/-! ### Python-style character/string helpers

The DKIM record parsing in `Agent.pubkey_query` uses Python `str.split`,
`str.strip`, `str.lower`/`str.upper`.  We model strings under parsing as
`List Char` and reproduce those operations (whitespace = the usual ASCII
whitespace characters stripped by Python `str.strip()`). -/

def isPySpace (c : Char) : Bool :=
  c = ' ' ∨ c = '\t' ∨ c = '\n' ∨ c = '\r' ∨ c = '\x0b' ∨ c = '\x0c'

/-- Python `str.strip()` on a list of characters. -/
def pyStrip (cs : List Char) : List Char :=
  ((cs.dropWhile isPySpace).reverse.dropWhile isPySpace).reverse

/-- Python `str.split(sep)` (keeping empty fields), e.g. `"a;;b" → ["a","","b"]`
and `"" → [""]`. -/
def splitOnChar (sep : Char) : List Char → List (List Char)
  | [] => [[]]
  | c :: rest =>
    let r := splitOnChar sep rest
    if c = sep then [] :: r
    else
      match r with
      | h :: t => (c :: h) :: t
      | [] => [[c]]

/-- Python `str.split(sep, 1)`: split at the first occurrence only; `none`
models the `ValueError` raised by unpacking when the separator is absent. -/
def splitEq1 : List Char → Option (List Char × List Char)
  | [] => none
  | c :: rest =>
    if c = '=' then some ([], rest)
    else (splitEq1 rest).map (fun p => (c :: p.1, p.2))

/-! ### Base-64 and hex codecs

`into_bytes` uses the Python stdlib base64/hex codecs.  We model the stdlib
base64 decoder on its documented lenient behaviour: symbols outside the
alphabet (and outside `'='`) are skipped, the remaining symbols must form
whole quads with standard trailing `'='` padding, otherwise decoding fails
("Incorrect padding").  The hex codec is strict pairs of hex digits. -/

def b64Val (c : Char) : Option Nat :=
  if 'A' ≤ c ∧ c ≤ 'Z' then some (c.toNat - 65)
  else if 'a' ≤ c ∧ c ≤ 'z' then some (c.toNat - 97 + 26)
  else if '0' ≤ c ∧ c ≤ '9' then some (c.toNat - 48 + 52)
  else if c = '+' then some 62
  else if c = '/' then some 63
  else none

def b64Quads : List Char → Option (List Nat)
  | [] => some []
  | a :: b :: '=' :: '=' :: [] => do
    let x ← b64Val a
    let y ← b64Val b
    some [x * 4 + y / 16]
  | a :: b :: c :: '=' :: [] => do
    let x ← b64Val a
    let y ← b64Val b
    let z ← b64Val c
    some [x * 4 + y / 16, (y % 16) * 16 + z / 4]
  | a :: b :: c :: d :: rest => do
    let x ← b64Val a
    let y ← b64Val b
    let z ← b64Val c
    let w ← b64Val d
    let r ← b64Quads rest
    some ([x * 4 + y / 16, (y % 16) * 16 + z / 4, (z % 4) * 64 + w] ++ r)
  | _ => none

/-- Python-stdlib-style base64 decoding of ASCII text (see above). -/
def b64decodePy (cs : List Char) : Option (List Nat) :=
  b64Quads (cs.filter fun c => (b64Val c).isSome ∨ c = '=')

def b64Char (n : Nat) : Char :=
  if n < 26 then Char.ofNat (65 + n)
  else if n < 52 then Char.ofNat (97 + n - 26)
  else if n < 62 then Char.ofNat (48 + n - 52)
  else if n = 62 then '+'
  else '/'

/-- Standard base64 encoding (the `into_b64` serializer). -/
def b64enc : List Nat → List Char
  | a :: b :: c :: rest =>
    [b64Char (a / 4), b64Char ((a % 4) * 16 + b / 16),
     b64Char ((b % 16) * 4 + c / 64), b64Char (c % 64)] ++ b64enc rest
  | [a, b] => [b64Char (a / 4), b64Char ((a % 4) * 16 + b / 16), b64Char ((b % 16) * 4), '=']
  | [a] => [b64Char (a / 4), b64Char ((a % 4) * 16), '=', '=']
  | [] => []

def into_b64 (bs : List Nat) : String := String.mk (b64enc bs)

def hexVal (c : Char) : Option Nat :=
  if '0' ≤ c ∧ c ≤ '9' then some (c.toNat - 48)
  else if 'a' ≤ c ∧ c ≤ 'f' then some (c.toNat - 97 + 10)
  else if 'A' ≤ c ∧ c ≤ 'F' then some (c.toNat - 65 + 10)
  else none

/-- The Python hex codec: strict pairs of hex digits. -/
def hexDecode : List Char → Option (List Nat)
  | [] => some []
  | a :: b :: rest => do
    let x ← hexVal a
    let y ← hexVal b
    let r ← hexDecode rest
    some ((x * 16 + y) :: r)
  | _ => none

/-- UTF-8 encoding of a string as a byte list (Python `str.encode('UTF-8')`). -/
def charUtf8 (c : Char) : List Nat :=
  let n := c.toNat
  if n < 128 then [n]
  else if n < 2048 then [192 + n / 64, 128 + n % 64]
  else if n < 65536 then [224 + n / 4096, 128 + (n / 64) % 64, 128 + n % 64]
  else [240 + n / 262144, 128 + (n / 4096) % 64, 128 + (n / 64) % 64, 128 + n % 64]

def utf8Bytes (s : String) : List Nat := (s.data.map charUtf8).flatten

/-- Python `str.lower()`: per-character lowercasing (ASCII scope). -/
def pyLower (s : String) : String := String.mk (s.data.map Char.toLower)

/-- `into_keys` restricted to raw byte material, returning the verifying key:
a 64-byte signing key contains the public key in its upper half, a 32-byte
value is the public key itself, anything else is unrecognized. -/
def intoKeysVk (k : List Nat) : Option (List Nat) :=
  if k.length = 64 then some (k.drop 32)
  else if k.length = 32 then some k
  else none

/-- Python truthiness of an optional byte string (`None` and `b''` are falsy). -/
def truthyBytes : Option (List Nat) → Bool
  | none => false
  | some b => !b.isEmpty

/-- Python truthiness of an optional string (`None` and `''` are falsy). -/
def truthyStrO : Option String → Bool
  | none => false
  | some s => !s.isEmpty

/-! ### Timespan and `overlap_intersect` -/

/-- `Timespan` (verification.py lines 685-706): an optional start `Timestamp`
and an optional `length` Duration, modelled as integer seconds. -/
structure Timespan where
  start : Option Int
  length : Option Int
deriving DecidableEq, Repr

/-- `Timespan.__init__` (lines 695-706): the coercions `into_timestamp` /
`into_duration` retain `None` and pass already-typed values through unchanged;
the constructor performs no validation relating `start` and `length`, so with
typed inputs it always succeeds. -/
def timespanInit (start length : Option Int) : Except String Timespan :=
  .ok ⟨start, length⟩

/-- `overlap_intersect( start, length, other )` (lines 562-606).  Returns
`(start, length, begun, ended)`; `Except.error` models the `AssertionError`
raised when a length is supplied without a start. -/
def overlap_intersect (start length : Option Int) (other : Timespan) :
    Except String (Option Int × Option Int × Option Int × Option Int) :=
  match start with
  | none =>
    if length.isSome then .error "Cannot specify a length without a start timestamp"
    else
      match other.start with
      | none =>
        if other.length.isSome then .error "Cannot specify a length without a start timestamp"
        else .ok (none, none, none, none)
      | some os =>
        match other.length with
        | none => .ok (some os, none, some os, none)
        | some ol => .ok (some os, some ol, some os, some (os + ol))
  | some s =>
    match other.start with
    | none =>
      if other.length.isSome then .error "Cannot specify a length without a start timestamp"
      else
        match length with
        | none => .ok (some s, none, some s, none)
        | some l => .ok (some s, some l, some s, some (s + l))
    | some os =>
      let begun := max s os
      match length, other.length with
      | none, none => .ok (some s, none, some begun, none)
      | l?, ol? =>
        let ended : Int :=
          match l?, ol? with
          | some l, none => s + l
          | none, some ol => os + ol
          | some l, some ol => min (s + l) (os + ol)
          | none, none => 0
        .ok (some begun, some (if ended ≤ begun then 0 else ended - begun),
             some begun, some ended)

/-- Is an `Except` result an error? -/
def isErr : Except ε α → Bool
  | .error _ => true
  | .ok _ => false

/-- Projection of an `overlap_intersect` result to the returned running
overlap `(start, length)` (the first two components). -/
def oiStartLen (r : Except String (Option Int × Option Int × Option Int × Option Int)) :
    Except String (Option Int × Option Int) :=
  r.map (fun t => (t.1, t.2.1))

/-! ### The data model: Json, Grant, Agent, License, LicenseSigned -/

/-- JSON values, for the canonical serialization model. -/
inductive Json where
  | str (s : String)
  | num (n : Int)
  | bool (b : Bool)
  | null
  | arr (xs : List Json)
  | obj (fields : List (String × Json))

/-- `Grant` (lines 709-749): a dynamic mapping from capability-group name to a
JSON object; `__init__` requires every first-level value to be a mapping, so a
well-formed Grant is a list of name/object pairs. -/
structure Grant where
  options : List (String × Json)

/-- `Grant.empty` (lines 744-749): True when the Grant holds no options. -/
def Grant.empty (g : Grant) : Bool := g.options.isEmpty

/-- `Agent` (lines 609-636), after construction: `name`, optional `pubkey`
(bytes), optional `domain`, `product`, `service`. -/
structure Agent where
  name : Option String
  pubkey : Option (List Nat)
  domain : Option String
  product : Option String
  service : Option String

/-- The `machine_id_path` argument: Python `None` (default `/etc/machine-id`),
`False` (machine checking suppressed) or an explicit path. -/
inductive MachPath where
  | default
  | disabled
  | path (p : String)
deriving DecidableEq, Repr

/-- The path actually handed to `machine_UUIDv4` (never consulted when
disabled). -/
def MachPath.pathArg : MachPath → Option String
  | .default => none
  | .disabled => none
  | .path p => some p

/-- A `machine` constraint value: `True` ("bind to this machine") or a
concrete UUID (modelled as a number). -/
inductive MachineVal where
  | tt
  | uuid (u : Nat)
deriving DecidableEq, Repr

mutual
/-- `License` (lines 752-913), after construction: author, optional client,
optional dependencies (list of LicenseSigned), optional machine UUID,
optional timespan, optional grant. -/
inductive License where
  | mk (author : Agent) (client : Option Agent)
       (dependencies : Option (List LicenseSigned)) (machine : Option Nat)
       (timespan : Option Timespan) (grant : Option Grant) : License

/-- `LicenseSigned` (lines 1131-1291): a License plus the Ed25519 signature of
its canonical serialization. -/
inductive LicenseSigned where
  | mk (license : License) (signature : List Nat) : LicenseSigned
end

def License.author : License → Agent
  | .mk a _ _ _ _ _ => a

def License.client : License → Option Agent
  | .mk _ c _ _ _ _ => c

def License.dependencies : License → Option (List LicenseSigned)
  | .mk _ _ d _ _ _ => d

def License.machine : License → Option Nat
  | .mk _ _ _ m _ _ => m

def License.timespan : License → Option Timespan
  | .mk _ _ _ _ t _ => t

def License.grant : License → Option Grant
  | .mk _ _ _ _ _ g => g

def LicenseSigned.license : LicenseSigned → License
  | .mk l _ => l

def LicenseSigned.signature : LicenseSigned → List Nat
  | .mk _ s => s

/-- The `License.start` property (lines 859-861): `self.timespan and
self.timespan.start`. -/
def License.start (l : License) : Option Int := l.timespan.bind Timespan.start

/-- The `License.length` property (lines 863-865): `self.timespan and
self.timespan.length`. -/
def License.lengthT (l : License) : Option Int := l.timespan.bind Timespan.length

/-! ### Error kinds

Python raises `LicenseIncompatibility` (or `AssertionError`/`RuntimeError`)
with a message string; the spec's §7 names the distinct error kinds.  We keep
the kind as an inductive and drop the message context that `verify` wraps
around sub-License failures (the wrapping only prepends text). -/

inductive VErr where
  | authorPubkeyMismatch
  | unrecognizedAuthorPubkey
  | dkimLookup (detail : String)
  | dkimMismatch
  | signatureMismatch
  | chainBroken
  | incompatibleTimespan
  | invalidTimespan (detail : String)
  | machineMismatch
  | machineConsMismatch
  | machineIdFailure (detail : String)
  | unsignedSubLicense
  | invalidInput (detail : String)
deriving DecidableEq, Repr

/-- The loop body of `License.overlap` (lines 915-937): run
`overlap_intersect` over each other timespan in turn and fail with
`IncompatibleTimespan` whenever the computed running length is exactly zero.
Each list element is the `(start, length)` pair of one other
License/Timespan. -/
def licenseOverlapFold (start length : Option Int) :
    List (Option Int × Option Int) → Except VErr (Option Int × Option Int)
  | [] => .ok (start, length)
  | other :: rest =>
    match overlap_intersect start length ⟨other.1, other.2⟩ with
    | .error m => .error (.invalidTimespan m)
    | .ok (s, l, _, _) =>
      match l with
      | some lv =>
        if lv = 0 then .error .incompatibleTimespan
        else licenseOverlapFold s l rest
      | none => licenseOverlapFold s l rest

/-! ### DKIM public-key retrieval -/

/-- `domainkey_service` (lines 68-91): IDNA-encode (the identity on the ASCII
product names in scope), translate `' '`, `'.'`, `'_'`, `'/'` to `'-'`, and
lowercase.  Retains `None`. -/
def dnsTrans (c : Char) : Char :=
  if c = ' ' ∨ c = '.' ∨ c = '_' ∨ c = '/' then '-' else c

def domainkey_service : Option String → Option String
  | none => none
  | some s => some (String.mk ((s.data.map dnsTrans).map Char.toLower))

/-- The DNS path composed by `domainkey` (lines 321-359):
`<service>.crypto-licensing._domainkey.<domain>.` where `MODULENAME` is
`crypto-licensing` (from the `defaults` module; value per spec §4.4 and the
doctest at lines 327-338).  A missing/empty service fails the assertion; a
missing domain fails `dns.name.from_text`. -/
def domainkeyPath (product domain service : Option String) : Except String String :=
  let svc := match service with
    | none => domainkey_service product
    | some s => some s
  match svc with
  | none => .error "A service is required to deduce the DKIM DNS path"
  | some s =>
    if s.isEmpty then .error "A service is required to deduce the DKIM DNS path"
    else
      match domain with
      | none => .error "Invalid domain for DKIM DNS path"
      | some d => .ok (s ++ ".crypto-licensing._domainkey." ++ d ++ ".")

/-- The record-parsing part of `Agent.pubkey_query` (lines 662-682).  The
argument is the list of TXT records returned by the external resolver, each
given as its character content (the `ast.literal_eval` collapse of adjacent
quoted segments — performed by the Python stdlib — is abstracted into the
resolver boundary).  Requires exactly one record; splits it on `';'`; each
token is stripped and split at the first `'='` (no `'='` raises); `v` must
equal `DKIM1` (case-insensitive via `.upper()`), `k` must equal `ed25519`
(via `.lower()`); `p` is stripped and base64-decoded. -/
def parseDkim (records : List String) : Except String (List Nat) :=
  match records with
  | [r] => do
    let p ← dkimScan none (splitOnChar ';' r.data)
    match p with
    | none => .error "Failed to locate public key in TXT DKIM record"
    | some pcs =>
      if pcs.isEmpty then .error "Failed to locate public key in TXT DKIM record"
      else
        match b64decodePy pcs with
        | none => .error "Could not decode public key as base64"
        | some bs => .ok bs
  | _ => .error "Failed to obtain a single TXT record"
where
  dkimScan : Option (List Char) → List (List Char) → Except String (Option (List Char))
    | p, [] => .ok p
    | p, pair :: rest =>
      match splitEq1 (pyStrip pair) with
      | none => .error "not enough values to unpack"
      | some (key, val) =>
        let k := (pyStrip key).map Char.toLower
        if k = "v".data ∧ val.map Char.toUpper ≠ "DKIM1".data then
          .error "Failed to find DKIM record"
        else if k = "k".data ∧ val.map Char.toLower ≠ "ed25519".data then
          .error "Failed to find Ed25519 public key"
        else
          dkimScan (if k = "p".data then some (pyStrip val) else p) rest

/-- An Ed25519 keypair (the `ed25519.Keypair` namedtuple, field order
`(vk, sk)`). -/
structure Keypair where
  vk : List Nat
  sk : List Nat
deriving DecidableEq, Repr

/-- The external collaborators, per the interface boundary of spec §1:
DNS TXT lookup, Ed25519 signature verification over the canonical
serialization, the machine-identity provider, SHA-256, ChaCha20-Poly1305
decryption (`none` = MAC rejected), Ed25519 keypair derivation from a seed,
and the CSPRNG-backed fresh keypair used by seedless `author()`. -/
structure Env where
  resolveTxt : String → Except String (List String)
  sigOk : License → List Nat → List Nat → Bool
  machineUuid : Option String → Except String Nat
  sha256 : List Nat → List Nat
  decrypt : List Nat → List Nat → List Nat → Option (List Nat)
  keypairFromSeed : List Nat → Keypair
  freshKeypair : Keypair

/-- `Agent.pubkey_query` (lines 638-682): compose the DKIM DNS path, query
the resolver for TXT records, and parse them. -/
def pubkey_query (env : Env) (product domain service : Option String) :
    Except String (List Nat) := do
  let path ← domainkeyPath product domain service
  match env.resolveTxt path with
  | .error e => .error e
  | .ok records => parseDkim records

/-- `Agent.__init__` (lines 617-636): require a truthy pubkey or a truthy
domain plus a truthy product or service; destructure the supplied pubkey with
`into_keys`; when no public key was recovered, fill it by performing the DKIM
DNS lookup immediately, at construction time. -/
def agentInit (env : Env) (name : Option String) (pubkey : Option (List Nat))
    (domain product service : Option String) : Except String Agent :=
  if !(truthyBytes pubkey || (truthyStrO domain && (truthyStrO product || truthyStrO service))) then
    .error "Either a pubkey or a domain + service/product must be provided"
  else
    match pubkey.bind intoKeysVk with
    | some pk => .ok ⟨name, some pk, domain, product, service⟩
    | none =>
      match pubkey_query env product domain service with
      | .error e => .error e
      | .ok p => .ok ⟨name, some p, domain, product, service⟩

/-! ### License verification -/

/-- The keyword `constraints` mapping handed to `License.verify`.  `verify`
reads and writes only the `timespan`, `machine` and `dependencies` entries;
`extra` stands for all other caller-supplied entries, which pass through
untouched.  A `timespan` entry is the already-coerced `Timespan` value (a
Timespan object is always truthy in Python). -/
structure Constraints where
  timespan : Option Timespan
  machine : Option MachineVal
  dependencies : Option (List LicenseSigned)
  extra : List (String × String)

def emptyConstraints : Constraints := ⟨none, none, none, []⟩

/-- The `dependencies` argument of `License.verify`: `False`, `True`, or a
list of already-accumulated LicenseSigned dependencies. -/
inductive DepArg where
  | fals
  | tru
  | list (l : List LicenseSigned)

/-- Step 1 of `License.verify` (lines 963-972): if a truthy `author_pubkey`
was supplied, destructure it (`Unrecognized author_pubkey` when that fails)
and require it to equal the license author's pubkey. -/
def checkAuthorPubkey (author : Agent) (apk : Option (List Nat)) : Except VErr Unit :=
  match apk with
  | none => .ok ()
  | some k =>
    if k.isEmpty then .ok ()
    else
      match intoKeysVk k with
      | none => .error .unrecognizedAuthorPubkey
      | some vk => if author.pubkey = some vk then .ok () else .error .authorPubkeyMismatch

/-- Step 2 of `License.verify` (lines 973-984): unless `confirm` is exactly
`False`, perform the DKIM lookup and require the resulting key to equal the
license's stated author pubkey. -/
def checkDkim (env : Env) (confirm : Option Bool) (author : Agent) : Except VErr Unit :=
  if confirm = some false then .ok ()
  else
    match pubkey_query env author.product author.domain author.service with
    | .error d => .error (.dkimLookup d)
    | .ok avkey => if author.pubkey = some avkey then .ok () else .error .dkimMismatch

/-- Step 3 of `License.verify` (lines 985-997): if a truthy signature is
given, Ed25519-verify it over the canonical serialization with the author's
pubkey (any failure inside `Serializable.verify`, including an absent or
undestructurable pubkey, becomes a signature-mismatch failure). -/
def checkSignature (env : Env) (lic : License) (pubkey : Option (List Nat))
    (sig : Option (List Nat)) : Except VErr Unit :=
  match sig with
  | none => .ok ()
  | some s =>
    if s.isEmpty then .ok ()
    else
      match pubkey.bind intoKeysVk with
      | some pk => if env.sigOk lic pk s then .ok () else .error .signatureMismatch
      | none => .error .signatureMismatch

/-- The `(start, length)` spans of the dependency licenses, via the
`License.start`/`License.length` properties. -/
def depSpans (deps : List LicenseSigned) : List (Option Int × Option Int) :=
  deps.map (fun d => (d.license.start, d.license.lengthT))

/-- Step 5 of `License.verify` (lines 1038-1066): collect the dependency
licenses and, iff a truthy `timespan` constraint was supplied, the constraint
Timespan; compute the running overlap; and iff a timespan constraint was
supplied, replace it with the computed overlap. -/
def timespanSection (licTs : Option Timespan) (deps : List LicenseSigned)
    (cons : Constraints) : Except VErr Constraints :=
  match licenseOverlapFold (licTs.bind Timespan.start) (licTs.bind Timespan.length)
      (depSpans deps ++
        (match cons.timespan with
         | some t => [(t.start, t.length)]
         | none => [])) with
  | .error e => .error e
  | .ok (s, l) =>
    match cons.timespan with
    | some _ => .ok { cons with timespan := some ⟨s, l⟩ }
    | none => .ok cons

/-- The constraint half of step 6 (lines 1092-1106): a concrete machine
constraint must equal the detected UUID; any non-`None` machine constraint is
then replaced by the detected UUID. -/
def machineConsCheck (mu : Nat) (cons : Constraints) : Except VErr Constraints :=
  match cons.machine with
  | some (.uuid u) =>
    if u ≠ mu then .error .machineConsMismatch
    else .ok { cons with machine := some (.uuid mu) }
  | some .tt => .ok { cons with machine := some (.uuid mu) }
  | none => .ok cons

/-- Step 6 of `License.verify` (lines 1074-1106): when machine checking is
not suppressed and either the license or the constraints name a machine,
obtain the machine UUID and check the license's machine and the constraint
against it. -/
def machineSection (env : Env) (mip : MachPath) (licMachine : Option Nat)
    (cons : Constraints) : Except VErr Constraints :=
  if mip ≠ MachPath.disabled ∧ (licMachine.isSome ∨ cons.machine.isSome) then
    match env.machineUuid mip.pathArg with
    | .error d => .error (.machineIdFailure d)
    | .ok mu =>
      match licMachine with
      | some m => if m ≠ mu then .error .machineMismatch else machineConsCheck mu cons
      | none => machineConsCheck mu cons
  else .ok cons

mutual
/-- Steps 1-6 of `License.verify` (lines 939-1114): author-pubkey match, DKIM
confirmation, signature check, dependency verification (with the
chain-of-custody check), timespan intersection and machine check, returning
the updated constraints.  The trailing `dependencies` handling (step 7) is in
`licVerify`. -/
def verifyCore (env : Env) (confirm : Option Bool) (mip : MachPath) :
    License → Option (List Nat) → Option (List Nat) → Constraints → Except VErr Constraints
  | lic@(.mk author _client depsOpt machine timespan _grant), apk, sig, cons => do
    checkAuthorPubkey author apk
    checkDkim env confirm author
    checkSignature env lic author.pubkey sig
    (match depsOpt with
     | none => pure ()
     | some ds => depsCheck env confirm mip author.pubkey ds)
    let cons1 ← timespanSection timespan (depsOpt.getD []) cons
    machineSection env mip machine cons1

/-- The dependency loop of `License.verify` (lines 1010-1027): each
LicenseSigned dependency is re-verified (with its own author pubkey and its
signature, the same `confirm` and machine-id path, no constraints and
`dependencies=False`), then its client pubkey, when set, must equal the outer
license author's pubkey (`ChainBroken` otherwise). -/
def depsCheck (env : Env) (confirm : Option Bool) (mip : MachPath)
    (authorPk : Option (List Nat)) : List LicenseSigned → Except VErr Unit
  | [] => .ok ()
  | LicenseSigned.mk l s :: rest => do
    match verifyCore env confirm mip l l.author.pubkey (some s) emptyConstraints with
    | .error e => .error e
    | .ok _ =>
      match l.client with
      | none => depsCheck env confirm mip authorPk rest
      | some cl =>
        match cl.pubkey with
        | none => depsCheck env confirm mip authorPk rest
        | some cpk =>
          if authorPk = some cpk then depsCheck env confirm mip authorPk rest
          else .error .chainBroken
end

/-- `LicenseSigned.__init__` when given a license and a ready signature
(lines 1238-1276): require a truthy signature, store its byte form, and
verify the license with its own author pubkey and this signature. -/
def licenseSignedInit (env : Env) (confirm : Option Bool) (mip : MachPath)
    (lic : License) (sig : List Nat) : Except VErr LicenseSigned := do
  if sig.isEmpty then
    .error (.invalidInput "Require either signature, or the means to produce one")
  else
    match verifyCore env confirm mip lic lic.author.pubkey (some sig) emptyConstraints with
    | .error e => .error e
    | .ok _ => .ok (.mk lic sig)

/-- `License.verify` in full (lines 939-1128): steps 1-6, then step 7
(lines 1116-1127): when `dependencies` is truthy (an empty list is falsy) a
signature must have been supplied; `constraints['dependencies']` becomes the
supplied list (fresh when `dependencies=True`) with the LicenseSigned formed
from this license and the signature appended. -/
def licVerify (env : Env) (confirm : Option Bool) (mip : MachPath) (lic : License)
    (apk sig : Option (List Nat)) (deparg : DepArg) (cons : Constraints) :
    Except VErr Constraints := do
  let cons1 ← verifyCore env confirm mip lic apk sig cons
  match deparg with
  | .fals => .ok cons1
  | .list [] => .ok cons1
  | _ =>
    match sig with
    | none => .error .unsignedSubLicense
    | some s =>
      match licenseSignedInit env confirm mip lic s with
      | .error e => .error e
      | .ok prov =>
        let base := match deparg with
          | .list l => l
          | _ => []
        .ok { cons1 with dependencies := some (base ++ [prov]) }

/-! ### Canonical serialization (`Serializable`)

`Serializable.keys` (lines 415-433) yields a slot iff its value is not `None`
and does not report `.empty()`; only `Grant` defines `empty`.  `into_JSON`
(lines 206-222) emits keys sorted at every depth with `,`/`:` separators.
Timestamp/Duration rendering (`into_str_UTC`/`into_str`, from the external
`misc` helpers) is abstracted as the decimal rendering of the modelled
integer — the claims below concern which fields appear, not the date
format. -/

def renderTs (t : Int) : String := toString t

/-- `Timespan`'s relevant keys: a field appears iff it is not `None`
(`Timespan` defines no `empty` method). -/
def timespanKeys (t : Timespan) : List String :=
  (if t.start.isSome then ["start"] else []) ++
  (if t.length.isSome then ["length"] else [])

/-- `dict(timespan)` → JSON: keys sorted (`length` < `start`), `None` fields
omitted. -/
def timespanJson (t : Timespan) : Json :=
  Json.obj
    ((match t.length with
      | some l => [("length", Json.str (renderTs l))]
      | none => []) ++
     (match t.start with
      | some s => [("start", Json.str (renderTs s))]
      | none => []))

/-- `Agent`'s relevant keys (slots `name, pubkey, domain, product, service`;
none of them defines `empty`, so presence is exactly non-`None`). -/
def agentKeys (a : Agent) : List String :=
  (if a.name.isSome then ["name"] else []) ++
  (if a.pubkey.isSome then ["pubkey"] else []) ++
  (if a.domain.isSome then ["domain"] else []) ++
  (if a.product.isSome then ["product"] else []) ++
  (if a.service.isSome then ["service"] else [])

/-- `dict(agent)` → JSON, keys sorted; `pubkey` serialized with `into_b64`. -/
def agentJson (a : Agent) : Json :=
  Json.obj
    ((match a.domain with | some d => [("domain", Json.str d)] | none => []) ++
     (match a.name with | some n => [("name", Json.str n)] | none => []) ++
     (match a.product with | some p => [("product", Json.str p)] | none => []) ++
     (match a.pubkey with | some k => [("pubkey", Json.str (into_b64 k))] | none => []) ++
     (match a.service with | some s => [("service", Json.str s)] | none => []))

/-- `dict(grant)`: the dynamic option mapping. -/
def grantJson (g : Grant) : Json := Json.obj g.options

/-- `License`'s relevant keys: slots `author, client, dependencies, machine,
timespan, grant`; `author` is always an Agent; a `grant` is omitted iff it is
`None` or reports `.empty()`; every other field is omitted iff `None`.  In
particular an *empty Timespan object is still included* — `Timespan` has no
`empty` method. -/
def licenseKeys : License → List String
  | .mk _author client deps machine timespan grant =>
    ["author"] ++
    (if client.isSome then ["client"] else []) ++
    (if deps.isSome then ["dependencies"] else []) ++
    (if machine.isSome then ["machine"] else []) ++
    (if timespan.isSome then ["timespan"] else []) ++
    (match grant with
     | some g => if g.empty then [] else ["grant"]
     | none => [])

mutual
/-- `dict(license)` → JSON with sorted keys (alphabetical: author, client,
dependencies, grant, machine, timespan), omitting fields per
`Serializable.keys`. -/
def licenseJson : License → Json
  | .mk author client deps machine timespan grant =>
    Json.obj
      ([("author", agentJson author)] ++
       (match client with | some c => [("client", agentJson c)] | none => []) ++
       (match deps with | some ds => [("dependencies", Json.arr (depsJson ds))] | none => []) ++
       (match grant with
        | some g => if g.empty then [] else [("grant", grantJson g)]
        | none => []) ++
       (match machine with | some m => [("machine", Json.str (toString m))] | none => []) ++
       (match timespan with | some t => [("timespan", timespanJson t)] | none => []))

def depsJson : List LicenseSigned → List Json
  | [] => []
  | LicenseSigned.mk l s :: rest =>
    Json.obj [("license", licenseJson l), ("signature", Json.str (into_b64 s))] :: depsJson rest
end

/-! ### Keypairs at rest -/

/-- The JSON object found in one candidate keypair file, restricted to the
keyword parameters the two containers accept (`sk`, `vk`, `salt`,
`ciphertext`); a file with other keys fails both constructors with a
`TypeError` before any of this logic runs. -/
structure KeyfileJson where
  sk : Option String
  vk : Option String
  salt : Option String
  ciphertext : Option String

/-- `KeypairEncrypted` after construction: the 12-byte salt and the 48-byte
ciphertext (32-byte encrypted seed plus 16-byte MAC). -/
structure KeypairEncrypted where
  salt : List Nat
  ciphertext : List Nat
deriving DecidableEq, Repr

/-- `KeypairPlaintext` after construction (its `__init__` ends by storing the
derived keypair: `self.vk, self.sk = self.into_keypair()`). -/
structure KeypairPlaintext where
  sk : List Nat
  vk : List Nat
deriving DecidableEq, Repr

/-- `KeypairEncrypted(**file_json)` as called by `load_keys` (no
username/password): lines 1374-1421.  The xor-assertion requires truthy
`ciphertext` and `salt`; the salt must hex-decode to 12 bytes and the
ciphertext to 48 bytes; with a ciphertext supplied the `sk`/`vk` arguments
are unused and no decryption is attempted. -/
def keypairEncryptedInit (f : KeyfileJson) : Except String KeypairEncrypted := do
  if !(truthyStrO f.ciphertext && truthyStrO f.salt) then
    .error "Insufficient data to create an Encrypted Keypair"
  else do
    let saltB ←
      match hexDecode (f.salt.getD "").data with
      | none => .error "salt not hex"
      | some b => pure b
    if saltB.length ≠ 12 then .error "Expected 96-bit salt"
    else do
      let ctB ←
        match hexDecode (f.ciphertext.getD "").data with
        | none => .error "ciphertext not hex"
        | some b => pure b
      if ctB.length ≠ 48 then .error "Expected 384-bit ChaCha20Poly1305-encrypted seed"
      else .ok ⟨saltB, ctB⟩

/-- `KeypairEncrypted.key` (lines 1423-1432): the symmetric key is the
SHA-256 of salt ++ UTF-8 of the lowercased username ++ UTF-8 of the password
(the password is *not* case-folded). -/
def encKey (env : Env) (e : KeypairEncrypted) (username password : String) : List Nat :=
  env.sha256 (e.salt ++ utf8Bytes (pyLower username) ++ utf8Bytes password)

/-- Errors from `into_keypair`: the distinguished `KeypairCredentialError`
versus any other exception. -/
inductive KeyErr where
  | cred (msg : String)
  | other (msg : String)
deriving DecidableEq, Repr

/-- `KeypairEncrypted.into_keypair` (lines 1434-1451): requires truthy
credentials (otherwise an `AssertionError`, not a credential error); derives
the key; decrypts the ciphertext with ChaCha20-Poly1305 using the *salt as
the nonce*; any decryption failure is `KeypairCredentialError`; on success
the keypair is derived from the recovered 32-byte seed. -/
def encIntoKeypair (env : Env) (e : KeypairEncrypted) (username password : Option String) :
    Except KeyErr Keypair :=
  match username, password with
  | some u, some p =>
    if u.isEmpty ∨ p.isEmpty then
      .error (.other "Cannot recover Encrypted Keypair without username and password")
    else
      match env.decrypt (encKey env e u p) e.salt e.ciphertext with
      | none => .error (.cred "Failed to decrypt ChaCha20Poly1305-encrypted Keypair")
      | some seed => .ok (env.keypairFromSeed seed)
  | _, _ => .error (.other "Cannot recover Encrypted Keypair without username and password")

/-- `KeypairPlaintext(**file_json)` followed by `into_keypair` (lines
1294-1345): rejects `salt`/`ciphertext` keywords (`TypeError`); with neither
`sk` nor `vk` a fresh keypair is generated; `sk` must base64-decode to 32 or
64 bytes; a truthy `vk` must decode to 32 bytes and match `sk[32:]` when `sk`
is 64 bytes; the keypair is re-derived from `sk[:32]` and cross-checked
against `vk`. -/
def keypairPlaintextInit (env : Env) (f : KeyfileJson) :
    Except String (KeypairPlaintext × Keypair) := do
  if f.salt.isSome ∨ f.ciphertext.isSome then
    .error "unexpected keyword argument"
  else do
    let skB : List Nat ←
      if !truthyStrO f.sk && !truthyStrO f.vk then pure env.freshKeypair.sk
      else
        match f.sk with
        | none => .error "invalid private key material"
        | some s =>
          match b64decodePy s.data with
          | none => .error "could not decode sk as base64"
          | some bs => pure bs
    if skB.length ≠ 32 ∧ skB.length ≠ 64 then
      .error "Expected 256-bit or 512-bit Ed25519 Private Key"
    else do
      let vkB : Option (List Nat) ←
        if truthyStrO f.vk then
          match b64decodePy (f.vk.getD "").data with
          | none => .error "could not decode vk as base64"
          | some vb =>
            if vb.length ≠ 32 then .error "Expected 256-bit Ed25519 Public Key"
            else if skB.length = 64 ∧ vb ≠ skB.drop 32 then
              .error "Inconsistent Ed25519 signing / public keys in supplied data"
            else pure (some vb)
        else if skB.length = 64 then pure (some (skB.drop 32))
        else pure none
      let kp := env.keypairFromSeed (skB.take 32)
      match vkB with
      | some vb =>
        if kp.vk ≠ vb then
          .error "Failed to derive matching Ed25519 public key from supplied private key data"
        else .ok (⟨kp.sk, kp.vk⟩, kp)
      | none => .ok (⟨kp.sk, kp.vk⟩, kp)

/-- What `load_keys` does with one parsed keypair file. -/
inductive LoadOutcome where
  | encOk (e : KeypairEncrypted) (kp : Keypair)
  | credFail (e : KeypairEncrypted) (msg : String)
  | plainOk (p : KeypairPlaintext) (kp : Keypair)
  | skipFail
deriving DecidableEq, Repr

/-- The `KeypairPlaintext` probe of the `load_keys` loop (lines 1682-1704):
on success the keypair is yielded, on any failure the issue is recorded and
the file skipped. -/
def tryPlaintext (env : Env) (f : KeyfileJson) : LoadOutcome :=
  match keypairPlaintextInit env f with
  | .ok (p, kp) => .plainOk p kp
  | .error _ => .skipFail

/-- The body of the `load_keys` loop for one parsed file (lines 1653-1704):
`KeypairEncrypted` is attempted first and decrypted; a
`KeypairCredentialError` records the failure and does *not* fall through to
`KeypairPlaintext`; any other failure (schema-level, or missing credentials)
falls through to the `KeypairPlaintext` probe. -/
def loadKeysOne (env : Env) (f : KeyfileJson) (username password : Option String) :
    LoadOutcome :=
  match keypairEncryptedInit f with
  | .ok enc =>
    match encIntoKeypair env enc username password with
    | .ok kp => .encOk enc kp
    | .error (.cred m) => .credFail enc m
    | .error (.other _) => tryPlaintext env f
  | .error _ => tryPlaintext env f

/-! ## Theorems -/

theorem exBind_ok {α β ε : Type} (a : α) (f : α → Except ε β) :
    (Except.ok a >>= f) = f a := rfl

theorem exBind_err {α β ε : Type} (e : ε) (f : α → Except ε β) :
    ((Except.error e : Except ε α) >>= f) = Except.error e := rfl

/-! ### C4: commutativity of `overlap_intersect` -/

/-- C4 counterexample: `overlap_intersect` is *not* commutative in the
returned overlap `(start, length)`.  With `a = (start=0, no length)` and
`b = (start=1, no length)` — both starts present, neither length — the
function returns the *first* argument's start unchanged (source line 593:
`return start,length,begun,None`), so the two orders give overlap starts
`0` and `1` respectively (and a fold over dependencies can accordingly
depend on their order). -/
theorem overlap_intersect_not_comm :
    oiStartLen (overlap_intersect (some 0) none ⟨some 1, none⟩) ≠
      oiStartLen (overlap_intersect (some 1) none ⟨some 0, none⟩) := by
  simp [overlap_intersect, oiStartLen, Except.map]

/-- C4 (amended): `overlap_intersect` is commutative in the returned overlap
`(start, length)` for all valid timespans (no length without a start),
*except* when both sides have a start, neither has a length, and the starts
differ — there the returned overlap start is the first argument's start. -/
theorem overlap_intersect_comm (as? al? bs? bl? : Option Int)
    (ha : al?.isSome → as?.isSome) (hb : bl?.isSome → bs?.isSome)
    (hx : ¬(al? = none ∧ bl? = none ∧ as?.isSome ∧ bs?.isSome ∧ as? ≠ bs?)) :
    oiStartLen (overlap_intersect as? al? ⟨bs?, bl?⟩) =
      oiStartLen (overlap_intersect bs? bl? ⟨as?, al?⟩) := by
  rcases as? with _ | as <;> rcases al? with _ | al <;>
    rcases bs? with _ | bs <;> rcases bl? with _ | bl <;>
    simp only [overlap_intersect, oiStartLen, Except.map] <;>
    first
      | rfl
      | (simp at ha; done)
      | (simp at hb; done)
      | (simp only [Except.ok.injEq, Prod.mk.injEq, Option.some.injEq]
         split_ifs <;> omega)
      | (have heq : as = bs := by
           by_contra hne
           exact hx ⟨rfl, rfl, rfl, rfl, by simpa using hne⟩
         subst heq
         rfl)

/-- C4 witness: the commutativity theorem applied at concrete overlapping
timespans. -/
theorem overlap_intersect_comm_witness :
    oiStartLen (overlap_intersect (some 0) (some 10) ⟨some 5, some 10⟩) =
      oiStartLen (overlap_intersect (some 5) (some 10) ⟨some 0, some 10⟩) :=
  overlap_intersect_comm (some 0) (some 10) (some 5) (some 10)
    (by simp) (by simp) (by simp)

/-! ### C9: a length without a start -/

/-- C9 counterexample: `Timespan.__init__` performs no validation relating
`start` and `length`; constructing a Timespan with a length but no start
*succeeds* (the claim says construction fails).  Only later uses —
`overlap_intersect` — reject it. -/
theorem timespanInit_length_without_start_succeeds :
    timespanInit none (some 5) = .ok ⟨none, some 5⟩ := rfl

/-- C9 (amended): a Timespan with a length but no start is constructible
(no check in `Timespan.__init__`), but every `overlap_intersect` in which it
participates — on either side — fails with the assertion `Cannot specify a
length without a start timestamp`. -/
theorem overlap_intersect_rejects_length_without_start
    (s l : Option Int) (other : Timespan)
    (h : (s = none ∧ l.isSome) ∨ (other.start = none ∧ other.length.isSome)) :
    isErr (overlap_intersect s l other) = true := by
  obtain ⟨os?, ol?⟩ := other
  simp only at h
  rcases s with _ | sv <;> rcases l with _ | lv <;>
    rcases os? with _ | os <;> rcases ol? with _ | ol <;>
    simp_all [overlap_intersect, isErr]

/-- C9 witness: the invalid Timespan `(no start, length 5)` is rejected by
`overlap_intersect` against a concrete other timespan. -/
theorem overlap_intersect_rejects_witness :
    isErr (overlap_intersect (some 0) (some 10) ⟨none, some 5⟩) = true :=
  overlap_intersect_rejects_length_without_start (some 0) (some 10) ⟨none, some 5⟩
    (Or.inr (by simp))

/-! ### C3: zero-length overlap fails -/

/-- Whenever `overlap_intersect` computes both `begun` and `ended` with
`ended ≤ begun`, the returned running length is exactly `Duration(0)`
(lengths being non-negative durations per spec §3). -/
theorem oi_zero_len (sv? lv? os? ol? s l : Option Int) (b e : Int)
    (hl0 : ∀ x, lv? = some x → 0 ≤ x)
    (hlo : ∀ x, ol? = some x → 0 ≤ x)
    (hok : overlap_intersect sv? lv? ⟨os?, ol?⟩ = .ok (s, l, some b, some e))
    (hle : e ≤ b) : l = some 0 := by
  rcases sv? with _ | sv <;> rcases lv? with _ | lv <;>
    rcases os? with _ | os <;> rcases ol? with _ | ol <;>
    simp_all [overlap_intersect] <;>
    (obtain ⟨h1, h2, h3, h4⟩ := hok
     subst h2
     simp only [Option.some.injEq]
     try split_ifs
     all_goals omega)

/-- C3: whenever `overlap_intersect` over a pair intersected during
`License.verify` computes both a `begun` and an `ended` timestamp with
`ended ≤ begun` (zero-length overlap), the `License.overlap` loop fails with
`IncompatibleTimespan`; lengths are non-negative durations (spec §3). -/
theorem overlap_zero_fails (sv? lv? os? ol? s l : Option Int) (b e : Int)
    (hl0 : ∀ x, lv? = some x → 0 ≤ x)
    (hlo : ∀ x, ol? = some x → 0 ≤ x)
    (hok : overlap_intersect sv? lv? ⟨os?, ol?⟩ = .ok (s, l, some b, some e))
    (hle : e ≤ b) :
    licenseOverlapFold sv? lv? [(os?, ol?)] = .error .incompatibleTimespan := by
  have hl : l = some 0 := oi_zero_len sv? lv? os? ol? s l b e hl0 hlo hok hle
  subst hl
  simp [licenseOverlapFold, hok]

/-- C3 witness: a license ending exactly where the other starts
(`[0, 0+10)` against `[10, 10+5)`) has `ended = begun = 10`, does not
overlap, and fails. -/
theorem overlap_zero_fails_witness :
    licenseOverlapFold (some 0) (some 10) [(some 10, some 5)] =
      .error .incompatibleTimespan :=
  overlap_zero_fails (some 0) (some 10) (some 10) (some 5)
    (some 10) (some 0) 10 10
    (by intro x hx; cases hx; norm_num) (by intro x hx; cases hx; norm_num)
    (by simp [overlap_intersect]) (by norm_num)

/-! ### C6: DKIM record parsing -/

/-- C6 counterexample: `pubkey_query` performs *no length check* on the
decoded key.  A record whose `p=` decodes to 3 bytes is accepted and the
3-byte value returned as the "public key" (the claim says a decoded key of
the wrong length fails with `DkimLookupFailed`). -/
theorem dkim_wrong_length_accepted :
    parseDkim ["v=DKIM1; k=ed25519; p=AAAA"] = .ok [0, 0, 0] := by
  rfl

/-- C6 (amended): DKIM retrieval requires exactly one TXT record, requires
`v=DKIM1` and `k=ed25519` when those tags are present, requires a non-empty
`p=` tag, and fails on undecodable base64 — each deviation yields a lookup
failure (`DkimLookupFailed`) — but the decoded key is returned *without any
length check*; a correct record yields the decoded 32 bytes. -/
theorem dkim_requirements :
    (∀ rs : List String, rs.length ≠ 1 → isErr (parseDkim rs) = true)
    ∧ isErr (parseDkim ["v=DKIM2; k=ed25519; p=AAAA"]) = true
    ∧ isErr (parseDkim ["v=DKIM1; k=rsa; p=AAAA"]) = true
    ∧ isErr (parseDkim ["v=DKIM1; k=ed25519"]) = true
    ∧ isErr (parseDkim ["v=DKIM1; k=ed25519; p="]) = true
    ∧ isErr (parseDkim ["v=DKIM1; k=ed25519; p=A"]) = true
    ∧ parseDkim ["v=DKIM1; k=ed25519; p=AAAAAAAAAAAAAAAAAAAAAAAAAAAAAAAAAAAAAAAAAAA="] =
        .ok (List.replicate 32 0) := by
  refine ⟨?_, by rfl, by rfl, by rfl, by rfl, by rfl, by rfl⟩
  intro rs h
  match rs with
  | [] => rfl
  | [r] => simp at h
  | a :: b :: t => rfl

/-- C6 witness: the zero-records deviation of the amended theorem at a
concrete input. -/
theorem dkim_requirements_witness : isErr (parseDkim []) = true :=
  dkim_requirements.1 [] (by simp)

/-! ### C7: encrypted-first keypair probing in `load_keys` -/

/-- C7: for each keypair file, `KeypairEncrypted` is attempted first; if the
encrypted container parses but decryption fails with
`KeypairCredentialError`, the failure is recorded (`credFail`) and
`KeypairPlaintext` is *not* attempted; on success the keypair is yielded;
only when `KeypairEncrypted` processing fails otherwise (schema level) is
the `KeypairPlaintext` probe run on the same file's JSON. -/
theorem load_keys_probe (env : Env) (f : KeyfileJson) (u p : Option String) :
    (∀ enc m, keypairEncryptedInit f = .ok enc →
       encIntoKeypair env enc u p = .error (.cred m) →
       loadKeysOne env f u p = .credFail enc m)
    ∧ (∀ enc kp, keypairEncryptedInit f = .ok enc →
       encIntoKeypair env enc u p = .ok kp →
       loadKeysOne env f u p = .encOk enc kp)
    ∧ (∀ err, keypairEncryptedInit f = .error err →
       loadKeysOne env f u p = tryPlaintext env f) := by
  refine ⟨?_, ?_, ?_⟩ <;> intros <;> simp [loadKeysOne, *]

def envC7 : Env :=
  { resolveTxt := fun _ => .error "offline"
    sigOk := fun _ _ _ => false
    machineUuid := fun _ => .error "no machine id"
    sha256 := fun l => l
    decrypt := fun _ _ _ => none
    keypairFromSeed := fun s => ⟨List.replicate 32 9, s ++ List.replicate 32 9⟩
    freshKeypair := ⟨List.replicate 32 8, List.replicate 64 8⟩ }

def fileC7 : KeyfileJson :=
  ⟨none, none, some (String.mk (List.replicate 24 '0')),
   some (String.mk (List.replicate 96 '0'))⟩

/-- C7 witness: a well-formed encrypted container whose MAC rejects the
credentials records the credential failure and never probes plaintext. -/
theorem load_keys_probe_witness :
    loadKeysOne envC7 fileC7 (some "a@b.c") (some "password") =
      .credFail ⟨List.replicate 12 0, List.replicate 48 0⟩
        "Failed to decrypt ChaCha20Poly1305-encrypted Keypair" :=
  (load_keys_probe envC7 fileC7 (some "a@b.c") (some "password")).1
    ⟨List.replicate 12 0, List.replicate 48 0⟩ _ rfl rfl

/-! ### C8: encrypted-keypair key derivation and credentials -/

/-- C8: the symmetric key is `sha256(salt ‖ utf8(lower(username)) ‖
utf8(password))`; the salt itself is the ChaCha20-Poly1305 nonce (visible as
the second argument of `decrypt` below); the username is case-folded before
hashing while the password is not, so `into_keypair` is invariant under
username case, succeeds when the MAC accepts, and raises
`KeypairCredentialError` when the MAC rejects (as it does for a
case-changed password). -/
theorem enc_credentials (env : Env) (e : KeypairEncrypted) (u1 u2 pw : String)
    (seed : List Nat)
    (hu : pyLower u1 = pyLower u2)
    (h1 : u1.isEmpty = false) (h2 : u2.isEmpty = false) (hp : pw.isEmpty = false) :
    encKey env e u1 pw = env.sha256 (e.salt ++ utf8Bytes (pyLower u1) ++ utf8Bytes pw)
    ∧ encKey env e u1 pw = encKey env e u2 pw
    ∧ encIntoKeypair env e (some u1) (some pw) = encIntoKeypair env e (some u2) (some pw)
    ∧ (env.decrypt (encKey env e u1 pw) e.salt e.ciphertext = some seed →
        encIntoKeypair env e (some u1) (some pw) = .ok (env.keypairFromSeed seed))
    ∧ (env.decrypt (encKey env e u1 pw) e.salt e.ciphertext = none →
        encIntoKeypair env e (some u1) (some pw) =
          .error (.cred "Failed to decrypt ChaCha20Poly1305-encrypted Keypair")) := by
  have hk : encKey env e u1 pw = encKey env e u2 pw := by
    unfold encKey
    rw [hu]
  refine ⟨rfl, hk, ?_, ?_, ?_⟩
  · simp [encIntoKeypair, h1, h2, hp, hk]
  · intro hd
    simp [encIntoKeypair, h1, hp, hd]
  · intro hd
    simp [encIntoKeypair, h1, hp, hd]

def envC8 : Env :=
  { resolveTxt := fun _ => .error "offline"
    sigOk := fun _ _ _ => false
    machineUuid := fun _ => .error "no machine id"
    sha256 := fun l => l
    decrypt := fun k _ _ =>
      if k = List.replicate 12 0 ++ utf8Bytes "a@b.c" ++ utf8Bytes "password" then
        some (List.replicate 32 7)
      else none
    keypairFromSeed := fun s => ⟨List.replicate 32 1, s ++ List.replicate 32 1⟩
    freshKeypair := ⟨List.replicate 32 8, List.replicate 64 8⟩ }

def encC8 : KeypairEncrypted := ⟨List.replicate 12 0, List.replicate 48 2⟩

/-- C8 witness (the spec's scenario 5, salt `000000000000000000000000`):
with username `A@B.C` (case differs from the saved `a@b.c`) and password
`password` decryption succeeds; with password `Password` it raises
`KeypairCredentialError`. -/
theorem enc_credentials_witness :
    encIntoKeypair envC8 encC8 (some "A@B.C") (some "password") =
      .ok (envC8.keypairFromSeed (List.replicate 32 7))
    ∧ encIntoKeypair envC8 encC8 (some "A@B.C") (some "Password") =
        .error (.cred "Failed to decrypt ChaCha20Poly1305-encrypted Keypair") :=
  ⟨(enc_credentials envC8 encC8 "A@B.C" "a@b.c" "password" (List.replicate 32 7)
      (by decide) rfl rfl rfl).2.2.2.1 (by decide),
   (enc_credentials envC8 encC8 "A@B.C" "a@b.c" "Password" (List.replicate 32 7)
      (by decide) rfl rfl rfl).2.2.2.2 (by decide)⟩

/-! ### C10: Agent construction performs the DKIM lookup -/

/-- C10: every successfully constructed Agent has a non-`None` pubkey, and
when no pubkey is recovered from the arguments (in particular when none is
supplied), `Agent.__init__` itself performs the DKIM DNS lookup during
construction — the constructed agent is exactly the lookup's result mapped
into the Agent record, independent of any later `confirm=False`
verification. -/
theorem agent_constructed_pubkey (env : Env) (name : Option String)
    (pubkey : Option (List Nat)) (domain product service : Option String) :
    (∀ a, agentInit env name pubkey domain product service = .ok a →
       a.pubkey.isSome)
    ∧ (pubkey = none → truthyStrO domain = true →
        (truthyStrO product = true ∨ truthyStrO service = true) →
        agentInit env name none domain product service =
          (pubkey_query env product domain service).map
            (fun p => ⟨name, some p, domain, product, service⟩)) := by
  constructor
  · intro a h
    unfold agentInit at h
    split at h
    · simp at h
    · cases hpk : pubkey.bind intoKeysVk with
      | some pk =>
        simp [hpk] at h
        rw [← h]
        rfl
      | none =>
        rw [hpk] at h
        cases hq : pubkey_query env product domain service with
        | error e =>
          rw [hq] at h
          simp at h
        | ok p =>
          rw [hq] at h
          simp at h
          rw [← h]
          rfl
  · intro hn hd hps
    have hcond : (truthyBytes none ||
        (truthyStrO domain && (truthyStrO product || truthyStrO service))) = true := by
      rcases hps with h | h <;> simp [truthyBytes, hd, h]
    unfold agentInit
    rw [hcond]
    cases hq : pubkey_query env product domain service <;>
      simp [hq, Except.map]

def envDkim : Env :=
  { resolveTxt := fun _ =>
      .ok ["v=DKIM1; k=ed25519; p=AAAAAAAAAAAAAAAAAAAAAAAAAAAAAAAAAAAAAAAAAAA="]
    sigOk := fun _ _ _ => false
    machineUuid := fun _ => .error "no machine id"
    sha256 := fun l => l
    decrypt := fun _ _ _ => none
    keypairFromSeed := fun s => ⟨List.replicate 32 9, s ++ List.replicate 32 9⟩
    freshKeypair := ⟨List.replicate 32 8, List.replicate 64 8⟩ }

/-- C10 witness: constructing an Agent with only domain and product performs
the DNS lookup at construction and fills in the 32-byte key. -/
theorem agent_constructed_pubkey_witness :
    agentInit envDkim (some "N") none (some "b.c") (some "Something") none =
      (pubkey_query envDkim (some "Something") (some "b.c") none).map
        (fun p => ⟨some "N", some p, some "b.c", some "Something", none⟩)
    ∧ pubkey_query envDkim (some "Something") (some "b.c") none =
        .ok (List.replicate 32 0) :=
  ⟨(agent_constructed_pubkey envDkim (some "N") none
      (some "b.c") (some "Something") none).2 rfl (by decide) (Or.inl (by decide)),
   by rfl⟩

/-! ### C2: chain-of-custody over dependencies -/

/-- C2: in the dependency loop of `License.verify`, a dependency that itself
verifies but whose license names a client with a pubkey different from the
outer license author's pubkey fails with `ChainBroken`; when the dependency
has no client, or the client's pubkey is unset, or it equals the author's
pubkey, the chain-of-custody check passes and verification proceeds to the
remaining dependencies. -/
theorem chain_of_custody (env : Env) (confirm : Option Bool) (mip : MachPath)
    (apk : Option (List Nat)) (l : License) (s : List Nat)
    (rest : List LicenseSigned) (u : Constraints)
    (hok : verifyCore env confirm mip l l.author.pubkey (some s) emptyConstraints = .ok u) :
    (∀ cl cpk, l.client = some cl → cl.pubkey = some cpk → apk ≠ some cpk →
       depsCheck env confirm mip apk (.mk l s :: rest) = .error .chainBroken)
    ∧ ((l.client = none
        ∨ (∃ cl, l.client = some cl ∧ cl.pubkey = none)
        ∨ (∃ cl cpk, l.client = some cl ∧ cl.pubkey = some cpk ∧ apk = some cpk)) →
       depsCheck env confirm mip apk (.mk l s :: rest) =
         depsCheck env confirm mip apk rest) := by
  constructor
  · intro cl cpk hcl hcpk hne
    simp [depsCheck, hok, hcl, hcpk, hne]
  · intro h
    rcases h with h | ⟨cl, hcl, hpk⟩ | ⟨cl, cpk, hcl, hpk, heq⟩ <;>
      simp [depsCheck, hok, *]

def agentAuthD : Agent := ⟨some "DepAuthor", some (List.replicate 32 0), none, some "DP", none⟩
def agentClientD : Agent := ⟨some "Client", some (List.replicate 32 1), none, none, none⟩
def licD : License := .mk agentAuthD (some agentClientD) none none none none
def sigD : List Nat := List.replicate 64 3

def envSig : Env :=
  { resolveTxt := fun _ => .error "offline"
    sigOk := fun _ _ _ => true
    machineUuid := fun _ => .error "no machine id"
    sha256 := fun l => l
    decrypt := fun _ _ _ => none
    keypairFromSeed := fun s => ⟨List.replicate 32 9, s ++ List.replicate 32 9⟩
    freshKeypair := ⟨List.replicate 32 8, List.replicate 64 8⟩ }

/-- C2 witness: a dependency licensed to client pubkey `1…` inside a license
authored under pubkey `2…` breaks the chain. -/
theorem chain_of_custody_witness :
    depsCheck envSig (some false) .default (some (List.replicate 32 2))
      [.mk licD sigD] = .error .chainBroken :=
  (chain_of_custody envSig (some false) .default (some (List.replicate 32 2))
      licD sigD [] emptyConstraints rfl).1
    agentClientD (List.replicate 32 1) rfl rfl (by decide)

/-! ### C5: canonical serialization omits absent/empty fields -/

def agentC5 : Agent := ⟨some "Auth", some (List.replicate 32 0), none, some "P", none⟩
def licC5 : License := .mk agentC5 none none none (some ⟨none, none⟩) none

/-- C5 counterexample: a License whose Timespan is empty (both `start` and
`length` absent) serializes with `"timespan": {}` *included* — `Timespan` has
no `empty()` method, so `Serializable.keys` keeps it — contradicting the
claim that an empty Timespan serializes as absent. -/
theorem empty_timespan_serialized :
    licenseJson licC5 =
      Json.obj [("author", agentJson agentC5), ("timespan", Json.obj [])] := rfl

/-- An empty Grant does not affect the canonical serialization (and hence the
signing pre-image): serializing with `grant = some (empty)` equals
serializing with no grant at all. -/
theorem grant_empty_no_preimage_effect (a : Agent) (c : Option Agent)
    (d : Option (List LicenseSigned)) (m : Option Nat) (t : Option Timespan)
    (g : Grant) (hg : Grant.empty g = true) :
    licenseJson (.mk a c d m t (some g)) = licenseJson (.mk a c d m t none) := by
  obtain ⟨opts⟩ := g
  rcases opts with _ | ⟨p, rest⟩
  · rfl
  · simp [Grant.empty] at hg

/-- C5 (amended): `Serializable.keys` omits exactly the `None`-valued fields,
and a Grant reporting `.empty()`; an empty Grant leaves the signing pre-image
unchanged; but a Timespan field is kept whenever present — even an empty
Timespan (`Timespan` defines no `empty` method), which therefore serializes
as `{}` rather than being omitted. -/
theorem serialization_spec (lic : License) :
    ("client" ∈ licenseKeys lic ↔ lic.client.isSome)
    ∧ ("dependencies" ∈ licenseKeys lic ↔ lic.dependencies.isSome)
    ∧ ("machine" ∈ licenseKeys lic ↔ lic.machine.isSome)
    ∧ ("grant" ∈ licenseKeys lic ↔ ∃ g, lic.grant = some g ∧ g.empty = false)
    ∧ ("timespan" ∈ licenseKeys lic ↔ lic.timespan.isSome)
    ∧ (∀ g, lic.grant = some g → Grant.empty g = true →
        licenseJson lic = licenseJson
          (.mk lic.author lic.client lic.dependencies lic.machine lic.timespan none)) := by
  obtain ⟨a, c, d, m, t, g⟩ := lic
  refine ⟨?_, ?_, ?_, ?_, ?_, ?_⟩
  · rcases c with _ | c <;> rcases g with _ | g0 <;>
      (try by_cases he : g0.empty) <;>
      simp [licenseKeys, License.client, *]
  · rcases d with _ | d <;> rcases g with _ | g0 <;>
      (try by_cases he : g0.empty) <;>
      simp [licenseKeys, License.dependencies, *]
  · rcases m with _ | m <;> rcases g with _ | g0 <;>
      (try by_cases he : g0.empty) <;>
      simp [licenseKeys, License.machine, *]
  · rcases g with _ | g0 <;>
      (try by_cases he : g0.empty) <;>
      simp [licenseKeys, License.grant, *]
  · rcases t with _ | t <;> rcases g with _ | g0 <;>
      (try by_cases he : g0.empty) <;>
      simp [licenseKeys, License.timespan, *]
  · intro g0 hg he
    simp only [License.grant, Option.some.injEq] at hg
    subst hg
    exact grant_empty_no_preimage_effect a c d m t g0 he

def licG5 : License := .mk agentC5 none none none none (some ⟨[]⟩)

/-- C5 witness: the amended theorem applied to a concrete License carrying an
explicitly empty Grant. -/
theorem serialization_spec_witness :
    licenseJson licG5 = licenseJson (.mk agentC5 none none none none none) :=
  (serialization_spec licG5).2.2.2.2.2 ⟨[]⟩ rfl rfl

/-! ### C1: the constraints returned by `License.verify` -/

/-- The timespan section of `verifyCore` preserves the machine, dependencies
and extra entries, and — when a timespan constraint was supplied — replaces
it with the computed overlap of the license, its dependencies and the
constraint. -/
theorem timespanSection_ok (licTs : Option Timespan) (deps : List LicenseSigned)
    (cons cons' : Constraints)
    (h : timespanSection licTs deps cons = .ok cons') :
    cons'.machine = cons.machine ∧ cons'.dependencies = cons.dependencies ∧
    cons'.extra = cons.extra ∧
    (∀ ts, cons.timespan = some ts → ∃ s l,
       licenseOverlapFold (licTs.bind Timespan.start) (licTs.bind Timespan.length)
         (depSpans deps ++ [(ts.start, ts.length)]) = .ok (s, l) ∧
       cons'.timespan = some ⟨s, l⟩) := by
  unfold timespanSection at h
  cases hts : cons.timespan with
  | some ts =>
    rw [hts] at h
    split at h
    · exact absurd h (by simp)
    · rename_i s l heq
      injection h with h
      subst h
      refine ⟨rfl, rfl, rfl, ?_⟩
      intro ts2 hts2
      injection hts2 with he
      subst he
      exact ⟨s, l, heq, rfl⟩
  | none =>
    rw [hts] at h
    split at h
    · exact absurd h (by simp)
    · injection h with h
      subst h
      refine ⟨rfl, rfl, rfl, ?_⟩
      intro ts2 hts2
      simp at hts2

/-- `machineConsCheck` touches only the machine entry. -/
theorem machineConsCheck_ok (mu : Nat) (cons cons' : Constraints)
    (h : machineConsCheck mu cons = .ok cons') :
    cons'.timespan = cons.timespan ∧ cons'.dependencies = cons.dependencies ∧
    cons'.extra = cons.extra := by
  unfold machineConsCheck at h
  split at h
  · split at h
    · exact absurd h (by simp)
    · injection h with h
      subst h
      exact ⟨rfl, rfl, rfl⟩
  · injection h with h
    subst h
    exact ⟨rfl, rfl, rfl⟩
  · injection h with h
    subst h
    exact ⟨rfl, rfl, rfl⟩

/-- The machine section of `verifyCore` touches only the machine entry. -/
theorem machineSection_ok (env : Env) (mip : MachPath) (lm : Option Nat)
    (cons cons' : Constraints)
    (h : machineSection env mip lm cons = .ok cons') :
    cons'.timespan = cons.timespan ∧ cons'.dependencies = cons.dependencies ∧
    cons'.extra = cons.extra := by
  unfold machineSection at h
  split at h
  · split at h
    · exact absurd h (by simp)
    · rename_i mu hmu
      split at h
      · split at h
        · exact absurd h (by simp)
        · exact machineConsCheck_ok mu cons cons' h
      · exact machineConsCheck_ok mu cons cons' h
  · injection h with h
    subst h
    exact ⟨rfl, rfl, rfl⟩

/-- A successfully constructed `LicenseSigned` is exactly the pair of the
license and the supplied signature bytes. -/
theorem licenseSignedInit_ok (env : Env) (confirm : Option Bool) (mip : MachPath)
    (lic : License) (s : List Nat) (p : LicenseSigned)
    (h : licenseSignedInit env confirm mip lic s = .ok p) :
    p = .mk lic s := by
  unfold licenseSignedInit at h
  split at h
  · exact absurd h (by simp)
  · split at h
    · exact absurd h (by simp)
    · injection h with h
      exact h.symm

/-- Steps 1-6 of `License.verify` return the constraints with dependencies
and extra entries untouched and the supplied timespan constraint narrowed to
the computed overlap. -/
theorem verifyCore_ok (env : Env) (confirm : Option Bool) (mip : MachPath)
    (a : Agent) (c : Option Agent) (d : Option (List LicenseSigned))
    (m : Option Nat) (t : Option Timespan) (g : Option Grant)
    (apk sig : Option (List Nat)) (cons cons' : Constraints)
    (h : verifyCore env confirm mip (.mk a c d m t g) apk sig cons = .ok cons') :
    cons'.dependencies = cons.dependencies ∧ cons'.extra = cons.extra ∧
    (∀ ts, cons.timespan = some ts → ∃ s l,
       licenseOverlapFold (t.bind Timespan.start) (t.bind Timespan.length)
         (depSpans (d.getD []) ++ [(ts.start, ts.length)]) = .ok (s, l) ∧
       cons'.timespan = some ⟨s, l⟩) := by
  cases d with
  | none =>
    rw [verifyCore.eq_def] at h
    dsimp only at h
    cases h1 : checkAuthorPubkey a apk with
    | error e => rw [h1, exBind_err] at h; exact absurd h (by simp)
    | ok u1 =>
      rw [h1, exBind_ok] at h
      cases h2 : checkDkim env confirm a with
      | error e => rw [h2, exBind_err] at h; exact absurd h (by simp)
      | ok u2 =>
        rw [h2, exBind_ok] at h
        cases h3 : checkSignature env (.mk a c none m t g) a.pubkey sig with
        | error e => rw [h3, exBind_err] at h; exact absurd h (by simp)
        | ok u3 =>
          rw [h3, exBind_ok] at h
          rw [show ((pure () : Except VErr Unit) >>= fun _ =>
              (timespanSection t ((none : Option (List LicenseSigned)).getD []) cons >>= fun cons1 =>
                machineSection env mip m cons1)) =
              (timespanSection t ((none : Option (List LicenseSigned)).getD []) cons >>= fun cons1 =>
                machineSection env mip m cons1) from rfl] at h
          cases h5 : timespanSection t ((none : Option (List LicenseSigned)).getD []) cons with
          | error e => rw [h5, exBind_err] at h; exact absurd h (by simp)
          | ok cons1 =>
            rw [h5, exBind_ok] at h
            obtain ⟨hm1, hm2, hm3⟩ := machineSection_ok env mip m cons1 cons' h
            obtain ⟨ht1, ht2, ht3, ht4⟩ :=
              timespanSection_ok t ((none : Option (List LicenseSigned)).getD []) cons cons1 h5
            refine ⟨hm2.trans ht2, hm3.trans ht3, ?_⟩
            intro ts hts
            obtain ⟨s, l, hf, hc1⟩ := ht4 ts hts
            exact ⟨s, l, hf, hm1.trans hc1⟩
  | some ds =>
    rw [verifyCore.eq_def] at h
    dsimp only at h
    cases h1 : checkAuthorPubkey a apk with
    | error e => rw [h1, exBind_err] at h; exact absurd h (by simp)
    | ok u1 =>
      rw [h1, exBind_ok] at h
      cases h2 : checkDkim env confirm a with
      | error e => rw [h2, exBind_err] at h; exact absurd h (by simp)
      | ok u2 =>
        rw [h2, exBind_ok] at h
        cases h3 : checkSignature env (.mk a c (some ds) m t g) a.pubkey sig with
        | error e => rw [h3, exBind_err] at h; exact absurd h (by simp)
        | ok u3 =>
          rw [h3, exBind_ok] at h
          cases h4 : depsCheck env confirm mip a.pubkey ds with
          | error e => rw [h4, exBind_err] at h; exact absurd h (by simp)
          | ok u4 =>
            rw [h4, exBind_ok] at h
            cases h5 : timespanSection t ((some ds).getD []) cons with
            | error e => rw [h5, exBind_err] at h; exact absurd h (by simp)
            | ok cons1 =>
              rw [h5, exBind_ok] at h
              obtain ⟨hm1, hm2, hm3⟩ := machineSection_ok env mip m cons1 cons' h
              obtain ⟨ht1, ht2, ht3, ht4⟩ :=
                timespanSection_ok t ((some ds).getD []) cons cons1 h5
              refine ⟨hm2.trans ht2, hm3.trans ht3, ?_⟩
              intro ts hts
              obtain ⟨s, l, hf, hc1⟩ := ht4 ts hts
              exact ⟨s, l, hf, hm1.trans hc1⟩

/-- C1: whenever `License.verify` succeeds with `dependencies=True` and a
signature, the returned constraints carry the LicenseSigned formed from this
license and that signature appended to the (freshly started)
`dependencies` entry, all other caller-supplied entries unchanged, and —
when a `timespan` constraint was supplied — the `timespan` entry narrowed to
the computed overlap of the license's own timespan, every dependency's
timespan and the supplied constraint, exactly the inputs of a sub-License
constructor. -/
theorem verify_returns_constraints (env : Env) (confirm : Option Bool)
    (mip : MachPath) (lic : License) (apk : Option (List Nat)) (sig : List Nat)
    (cons res : Constraints)
    (h : licVerify env confirm mip lic apk (some sig) .tru cons = .ok res) :
    res.dependencies = some [LicenseSigned.mk lic sig]
    ∧ res.extra = cons.extra
    ∧ (∀ ts, cons.timespan = some ts → ∃ s l,
        licenseOverlapFold lic.start lic.lengthT
          (depSpans (lic.dependencies.getD []) ++ [(ts.start, ts.length)]) = .ok (s, l)
        ∧ res.timespan = some ⟨s, l⟩) := by
  obtain ⟨a, c, d, m, t, g⟩ := lic
  unfold licVerify at h
  cases h0 : verifyCore env confirm mip (.mk a c d m t g) apk (some sig) cons with
  | error e => rw [h0, exBind_err] at h; exact absurd h (by simp)
  | ok cons1 =>
    rw [h0, exBind_ok] at h
    dsimp only at h
    cases hls : licenseSignedInit env confirm mip (.mk a c d m t g) sig with
    | error e => rw [hls] at h; exact absurd h (by simp)
    | ok prov =>
      rw [hls] at h
      dsimp only at h
      injection h with h
      have hp := licenseSignedInit_ok env confirm mip (.mk a c d m t g) sig prov hls
      subst hp
      obtain ⟨hd, he, htv⟩ :=
        verifyCore_ok env confirm mip a c d m t g apk (some sig) cons cons1 h0
      refine ⟨?_, ?_, ?_⟩
      · rw [← h]
        simp
      · rw [← h]
        exact he
      · intro ts hts
        obtain ⟨s, l, hf, hc1⟩ := htv ts hts
        refine ⟨s, l, ?_, ?_⟩
        · simpa [License.start, License.lengthT, License.dependencies] using hf
        · rw [← h]
          exact hc1

def agentC1 : Agent := ⟨some "A", some (List.replicate 32 0), none, some "P", none⟩
def licC1 : License := .mk agentC1 none none none (some ⟨some 0, some 100⟩) none
def consC1 : Constraints := ⟨some ⟨some 0, some 50⟩, none, none, []⟩

/-- C1 witness: verifying a license valid on `[0, 100)` with a `timespan`
constraint of `[0, 50)`, `dependencies=True` and a signature yields the
constraints narrowed to `[0, 50)` with the LicenseSigned appended. -/
theorem verify_returns_constraints_witness :
    licVerify envSig (some false) MachPath.default licC1 none (some sigD) .tru consC1 =
      .ok ⟨some ⟨some 0, some 50⟩, none, some [.mk licC1 sigD], []⟩
    ∧ (Constraints.mk (some ⟨some 0, some 50⟩) none (some [.mk licC1 sigD]) []).dependencies =
        some [LicenseSigned.mk licC1 sigD] :=
  ⟨rfl,
   (verify_returns_constraints envSig (some false) MachPath.default licC1 none sigD
      consC1 ⟨some ⟨some 0, some 50⟩, none, some [.mk licC1 sigD], []⟩ rfl).1⟩

end CryptoLicensing
